import Mathlib

/-!
Shallow embedding of the joint-goal command layer of
`airobot/arm/single_arm_pybullet.py` (class `SingleArmPybullet`), together
with the Cartesian linear-interpolation helper used by `move_ee_xyz`.

External effects (pybullet motor commands, joint-state resets, link-state
reads and inverse-kinematics queries) are recorded in an explicit command
trace.  The external convergence waiter `wait_to_reach_jnt_goal`
(from `airobot/utils/arm_util.py`, outside the embedded sources) is
abstracted as an oracle stream of boolean outcomes, consumed one entry per
blocking wait; `nw` threads the index of the next unconsumed outcome.
Real numbers from the Python code are modelled as rationals.
-/

/-- Python exception classes raised by the embedded methods. -/
inductive Err where
  | runtimeError (msg : String)
  | valueError (msg : String)
  | typeError (msg : String)
  | assertionError (msg : String)
  | keyError (msg : String)
  | indexError (msg : String)
deriving DecidableEq, Repr

/-- A dynamically typed Python value holding either a float or a list of
floats, as accepted by `set_jpos` / `set_jvel` / `set_jtorq`. -/
inductive PyVal where
  | num (q : ℚ)
  | list (l : List ℚ)
deriving DecidableEq, Repr

/-- pybullet joint-motor control modes. -/
inductive ControlMode where
  | POSITION
  | VELOCITY
  | TORQUE
deriving DecidableEq, Repr

/-- A 3D point, used for end-effector positions and displacements. -/
structure Vec3 where
  x : ℚ
  y : ℚ
  z : ℚ
deriving DecidableEq, Repr

/-- Componentwise vector addition. -/
def vadd (a b : Vec3) : Vec3 := ⟨a.x + b.x, a.y + b.y, a.z + b.z⟩

/-- Scalar multiplication of a 3D vector. -/
def vsmul (c : ℚ) (v : Vec3) : Vec3 := ⟨c * v.x, c * v.y, c * v.z⟩

/-- Squared Euclidean norm of a 3D vector. -/
def normSq (v : Vec3) : ℚ := v.x ^ 2 + v.y ^ 2 + v.z ^ 2

/-- One externally visible pybullet call issued by the arm class:
motor commands (`setJointMotorControlArray` / `setJointMotorControl2`),
hard joint-state resets (`resetJointState`), end-effector pose reads
(`getLinkState`) and inverse-kinematics queries
(`calculateInverseKinematics`). -/
inductive Cmd where
  | controlArray (ids : List ℕ) (mode : ControlMode)
      (targets : Option PyVal) (forces : PyVal)
  | control2 (id : ℕ) (mode : ControlMode)
      (target : Option PyVal) (force : PyVal)
  | resetJointState (id : ℕ) (pos : PyVal) (vel : ℚ)
  | getLinkState (id : ℕ)
  | calculateIK (pos : Vec3) (ori : Option (List ℚ))
deriving DecidableEq, Repr

/-- The mutable/configured state of a `SingleArmPybullet` instance that the
embedded methods read or write: the canonical joint-name list
(`cfgs.ARM.JOINT_NAMES`), the urdf name-to-index map `jnt_to_id`, the
precomputed `arm_jnt_ids`, the per-joint torque-mode flags
`_in_torque_mode`, the `_step_sim_mode` flag, the configured
`_max_torques` and the end-effector link id. -/
structure SingleArmPybullet where
  arm_jnt_names : List String
  jnt_to_id : List (String × ℕ)
  arm_jnt_ids : List ℕ
  in_torque_mode : List Bool
  step_sim_mode : Bool
  max_torques : List ℚ
  ee_link_id : ℕ
deriving DecidableEq, Repr

/-- The external world consulted by the arm: the end-effector pose returned
by `getLinkState`, the inverse-kinematics solver, and the oracle stream of
outcomes of the external convergence waiter `wait_to_reach_jnt_goal`
(the `k`-th blocking wait performed returns `waits k`). -/
structure World where
  eePos : Vec3
  eeQuat : List ℚ
  ik : Vec3 → Option (List ℚ) → List ℚ
  waits : ℕ → Bool

/-- Result of running one method: the Python return value or the raised
exception, the updated arm state, the index of the next unconsumed waiter
outcome, and the trace of external commands issued before returning or
raising. -/
structure Res (α : Type) where
  ret : Except Err α
  arm : SingleArmPybullet
  nw : ℕ
  trace : List Cmd

instance {ε α : Type} [DecidableEq ε] [DecidableEq α] :
    DecidableEq (Except ε α) := fun x y =>
  match x, y with
  | .ok a, .ok b =>
    decidable_of_iff (a = b) ⟨congrArg _, fun h => by injection h⟩
  | .error e, .error f =>
    decidable_of_iff (e = f) ⟨congrArg _, fun h => by injection h⟩
  | .ok _, .error _ => .isFalse (fun h => by injection h)
  | .error _, .ok _ => .isFalse (fun h => by injection h)

instance {α : Type} [DecidableEq α] : DecidableEq (Res α) := fun r s =>
  decidable_of_iff
    (r.ret = s.ret ∧ r.arm = s.arm ∧ r.nw = s.nw ∧ r.trace = s.trace)
    (by cases r; cases s; simp)

/-- Python list indexing `l[i]` for a nonnegative index: raises
`IndexError` when out of range. -/
def pyGet {α : Type} (l : List α) (i : ℕ) : Except Err α :=
  if h : i < l.length then .ok (l.get ⟨i, h⟩)
  else .error (.indexError "list index out of range")

/-- Python `list.index(x)`: position of the first occurrence, raising
`ValueError` when the element is absent. -/
def pyIndex (l : List String) (x : String) : Except Err ℕ :=
  if x ∈ l then .ok (l.indexOf x)
  else .error (.valueError "is not in list")

/-- Python dict lookup `d[k]`: raises `KeyError` when the key is absent. -/
def dictGet (d : List (String × ℕ)) (k : String) : Except Err ℕ :=
  match d.lookup k with
  | some v => .ok v
  | none => .error (.keyError k)

namespace SingleArmPybullet

/-- `self.arm_dof`, set in `_init_consts` as `len(self.arm_jnt_names)`. -/
def arm_dof (a : SingleArmPybullet) : ℕ := a.arm_jnt_names.length

/-- `SingleArmPybullet._is_in_torque_mode`: the whole-arm query is the
conjunction `all(self._in_torque_mode)`; the single-joint query indexes the
flag list at `self.arm_jnt_names.index(joint_name)`. -/
def is_in_torque_mode (a : SingleArmPybullet) (joint_name : Option String) :
    Except Err Bool :=
  match joint_name with
  | none => .ok (a.in_torque_mode.all id)
  | some jn => do
      let jnt_id ← pyIndex a.arm_jnt_names jn
      pyGet a.in_torque_mode jnt_id

/-- `SingleArmPybullet.set_jtorq`: checks `_is_in_torque_mode` first
(raising `RuntimeError` on violation), then validates the goal shape and
issues a `TORQUE_CONTROL` motor command, returning `True`. -/
def set_jtorq (a : SingleArmPybullet) (torque : PyVal)
    (joint_name : Option String) (nw : ℕ) : Res Bool :=
  match is_in_torque_mode a joint_name with
  | .error e => ⟨.error e, a, nw, []⟩
  | .ok inMode =>
    if inMode then
      match joint_name with
      | none =>
        match torque with
        | .num _ => ⟨.error (.typeError "object of type float has no len"),
                     a, nw, []⟩
        | .list l =>
          if l.length ≠ a.arm_dof then
            ⟨.error (.valueError "Joint torques should contain arm_dof elements"),
             a, nw, []⟩
          else
            ⟨.ok true, a, nw,
             [Cmd.controlArray a.arm_jnt_ids ControlMode.TORQUE
                none (PyVal.list l)]⟩
      | some jn =>
        if jn ∈ a.arm_jnt_names then
          match dictGet a.jnt_to_id jn with
          | .error e => ⟨.error e, a, nw, []⟩
          | .ok jnt_id =>
            ⟨.ok true, a, nw,
             [Cmd.control2 jnt_id ControlMode.TORQUE none torque]⟩
        else
          ⟨.error (.valueError "Only torque control on the arm is supported"),
           a, nw, []⟩
    else
      ⟨.error (.runtimeError "Call enable_torque_control first before setting torques"),
       a, nw, []⟩

/-- `SingleArmPybullet.set_jvel`: validates the goal shape (full-arm goals
must have `arm_dof` entries, named joints must be arm joints), issues a
`VELOCITY_CONTROL` motor command bounded by the configured max torques,
then — only when not in step-simulation mode — either consults the
external waiter (`wait=True`) or reports success unconditionally
(`wait=False`).  In step-simulation mode the initial `success = False` is
returned. -/
def set_jvel (a : SingleArmPybullet) (w : World) (velocity : PyVal)
    (joint_name : Option String) (wait : Bool) (nw : ℕ) : Res Bool :=
  match joint_name with
  | none =>
    match velocity with
    | .num _ => ⟨.error (.typeError "object of type float has no len"),
                 a, nw, []⟩
    | .list l =>
      if l.length ≠ a.arm_dof then
        ⟨.error (.valueError "Velocity should contain arm_dof elements"),
         a, nw, []⟩
      else
        let tr := [Cmd.controlArray a.arm_jnt_ids ControlMode.VELOCITY
                     (some (PyVal.list l)) (PyVal.list a.max_torques)]
        if a.step_sim_mode then ⟨.ok false, a, nw, tr⟩
        else if wait then ⟨.ok (w.waits nw), a, nw + 1, tr⟩
        else ⟨.ok true, a, nw, tr⟩
  | some jn =>
    if jn ∈ a.arm_jnt_names then
      let arm_jnt_idx := a.arm_jnt_names.indexOf jn
      match pyGet a.max_torques arm_jnt_idx with
      | .error e => ⟨.error e, a, nw, []⟩
      | .ok max_torque =>
        match dictGet a.jnt_to_id jn with
        | .error e => ⟨.error e, a, nw, []⟩
        | .ok jnt_id =>
          let tr := [Cmd.control2 jnt_id ControlMode.VELOCITY
                       (some velocity) (PyVal.num max_torque)]
          if a.step_sim_mode then ⟨.ok false, a, nw, tr⟩
          else if wait then ⟨.ok (w.waits nw), a, nw + 1, tr⟩
          else ⟨.ok true, a, nw, tr⟩
    else
      ⟨.error (.typeError "Joint name is not in the arm joint list"),
       a, nw, []⟩

/-- `SingleArmPybullet.reset_joint_state`: hard joint-state reset via
`p.resetJointState` at `jnt_to_id[jnt_name]`. -/
def reset_joint_state (a : SingleArmPybullet) (jnt_name : String)
    (jpos : PyVal) (jvel : ℚ) : Except Err Unit × List Cmd :=
  match dictGet a.jnt_to_id jnt_name with
  | .error e => (.error e, [])
  | .ok jnt_id => (.ok (), [Cmd.resetJointState jnt_id jpos jvel])

/-- The `for idx, jnt in enumerate(self.arm_jnt_names)` loop of the
`ignore_physics` branch of `set_jpos`, calling `reset_joint_state` on each
(joint, target) pair in order. -/
def resetLoop (a : SingleArmPybullet) :
    List (String × ℚ) → Except Err Unit × List Cmd
  | [] => (.ok (), [])
  | (jn, v) :: rest =>
    match reset_joint_state a jn (PyVal.num v) 0 with
    | (.error e, tr) => (.error e, tr)
    | (.ok _, tr) =>
      let r := resetLoop a rest
      (r.1, tr ++ r.2)

/-- `SingleArmPybullet.set_jpos`: validates the goal shape; with
`ignore_physics` it first commands zero velocity via `set_jvel`, then
hard-resets the addressed joint state(s) and sets `success = True`;
otherwise it issues a `POSITION_CONTROL` motor command bounded by the max
torques.  Finally, when not in step-simulation mode and `wait` is set and
physics was not ignored, the external waiter decides `success`. -/
def set_jpos (a : SingleArmPybullet) (w : World) (position : PyVal)
    (joint_name : Option String) (wait : Bool) (ignore_physics : Bool)
    (nw : ℕ) : Res Bool :=
  match joint_name with
  | none =>
    match position with
    | .num _ => ⟨.error (.typeError "object of type float has no len"),
                 a, nw, []⟩
    | .list tgt_pos =>
      if tgt_pos.length ≠ a.arm_dof then
        ⟨.error (.valueError "Position should contain arm_dof elements"),
         a, nw, []⟩
      else
        if ignore_physics then
          match set_jvel a w (PyVal.list (List.replicate a.arm_dof 0))
              none false nw with
          | ⟨.error e, a', nw', tr⟩ => ⟨.error e, a', nw', tr⟩
          | ⟨.ok _, a', nw', tr⟩ =>
            match resetLoop a' (a'.arm_jnt_names.zip tgt_pos) with
            | (.error e, tr2) => ⟨.error e, a', nw', tr ++ tr2⟩
            | (.ok _, tr2) => ⟨.ok true, a', nw', tr ++ tr2⟩
        else
          let tr := [Cmd.controlArray a.arm_jnt_ids ControlMode.POSITION
                       (some (PyVal.list tgt_pos)) (PyVal.list a.max_torques)]
          if ¬ a.step_sim_mode ∧ wait then
            ⟨.ok (w.waits nw), a, nw + 1, tr⟩
          else
            ⟨.ok false, a, nw, tr⟩
  | some jn =>
    if jn ∈ a.arm_jnt_names then
      let arm_jnt_idx := a.arm_jnt_names.indexOf jn
      match pyGet a.max_torques arm_jnt_idx with
      | .error e => ⟨.error e, a, nw, []⟩
      | .ok max_torque =>
        match dictGet a.jnt_to_id jn with
        | .error e => ⟨.error e, a, nw, []⟩
        | .ok jnt_id =>
          if ignore_physics then
            match set_jvel a w (PyVal.num 0) (some jn) false nw with
            | ⟨.error e, a', nw', tr⟩ => ⟨.error e, a', nw', tr⟩
            | ⟨.ok _, a', nw', tr⟩ =>
              match reset_joint_state a' jn position 0 with
              | (.error e, tr2) => ⟨.error e, a', nw', tr ++ tr2⟩
              | (.ok _, tr2) => ⟨.ok true, a', nw', tr ++ tr2⟩
          else
            let tr := [Cmd.control2 jnt_id ControlMode.POSITION
                         (some position) (PyVal.num max_torque)]
            if ¬ a.step_sim_mode ∧ wait then
              ⟨.ok (w.waits nw), a, nw + 1, tr⟩
            else
              ⟨.ok false, a, nw, tr⟩
    else
      ⟨.error (.typeError "Joint name is not in the arm joint list"),
       a, nw, []⟩

/-- `SingleArmPybullet.enable_torque_control`: stabilizes the addressed
joint(s) with a zero-velocity, zero-force `VELOCITY_CONTROL` command and
flips the tracked `_in_torque_mode` flag(s) to `True`. -/
def enable_torque_control (a : SingleArmPybullet)
    (joint_name : Option String) (nw : ℕ) : Res Unit :=
  match joint_name with
  | none =>
    ⟨.ok (),
     { a with in_torque_mode := List.replicate a.arm_dof true }, nw,
     [Cmd.controlArray a.arm_jnt_ids ControlMode.VELOCITY
        (some (PyVal.list (List.replicate a.arm_dof 0)))
        (PyVal.list (List.replicate a.arm_dof 0))]⟩
  | some jn =>
    match dictGet a.jnt_to_id jn with
    | .error e => ⟨.error e, a, nw, []⟩
    | .ok jnt_id =>
      let tr := [Cmd.control2 jnt_id ControlMode.VELOCITY
                   (some (PyVal.num 0)) (PyVal.num 0)]
      match pyIndex a.arm_jnt_names jn with
      | .error e => ⟨.error e, a, nw, tr⟩
      | .ok arm_jnt_id =>
        ⟨.ok (),
         { a with in_torque_mode := a.in_torque_mode.set arm_jnt_id true },
         nw, tr⟩

/-- `SingleArmPybullet.disable_torque_control`: commands zero velocity via
`set_jvel` and flips the tracked `_in_torque_mode` flag(s) back to
`False`. -/
def disable_torque_control (a : SingleArmPybullet) (w : World)
    (joint_name : Option String) (nw : ℕ) : Res Unit :=
  match joint_name with
  | none =>
    match set_jvel a w (PyVal.list (List.replicate a.arm_dof 0))
        none false nw with
    | ⟨.error e, a', nw', tr⟩ => ⟨.error e, a', nw', tr⟩
    | ⟨.ok _, a', nw', tr⟩ =>
      ⟨.ok (),
       { a' with in_torque_mode := List.replicate a'.arm_dof false },
       nw', tr⟩
  | some jn =>
    match set_jvel a w (PyVal.num 0) (some jn) false nw with
    | ⟨.error e, a', nw', tr⟩ => ⟨.error e, a', nw', tr⟩
    | ⟨.ok _, a', nw', tr⟩ =>
      match pyIndex a'.arm_jnt_names jn with
      | .error e => ⟨.error e, a', nw', tr⟩
      | .ok arm_jnt_id =>
        ⟨.ok (),
         { a' with in_torque_mode := a'.in_torque_mode.set arm_jnt_id false },
         nw', tr⟩

end SingleArmPybullet

/-- A concrete two-joint arm used to evaluate the theorems on explicit
inputs: joints `shoulder` and `elbow` at urdf indices 0 and 1, an
end-effector link at index 2, realtime simulation, max torques 150. -/
def armEx : SingleArmPybullet :=
  { arm_jnt_names := ["shoulder", "elbow"]
    jnt_to_id := [("shoulder", 0), ("elbow", 1), ("ee_tip", 2)]
    arm_jnt_ids := [0, 1]
    in_torque_mode := [false, false]
    step_sim_mode := false
    max_torques := [150, 150]
    ee_link_id := 2 }

/-- `armEx` with both joints flagged in torque mode. -/
def armT : SingleArmPybullet := { armEx with in_torque_mode := [true, true] }

/-- `armEx` in manual step-simulation mode. -/
def armS : SingleArmPybullet := { armEx with step_sim_mode := true }

/-- A concrete external world: end effector at the origin, identity
orientation, a constant inverse-kinematics answer, and a waiter oracle
that succeeds at even call indices only. -/
def worldEx : World :=
  { eePos := ⟨0, 0, 0⟩
    eeQuat := [0, 0, 0, 1]
    ik := fun _ _ => [1/2, 1/3, 9]
    waits := fun k => k % 2 == 0 }

/-- Waypoint-count bound: `n` steps of length `step` cover the whole
displacement `d`, i.e. `‖d‖ ≤ n * step`, stated squared so that it is
decidable over the rationals. -/
def stepBound (d : Vec3) (step : ℚ) (n : ℕ) : Prop :=
  normSq d ≤ ((n : ℚ) * step) ^ 2

instance (d : Vec3) (step : ℚ) (n : ℕ) : Decidable (stepBound d step n) :=
  inferInstanceAs (Decidable (_ ≤ _))

theorem stepBound_exists (d : Vec3) (step : ℚ) (h : 0 < step) :
    ∃ n, stepBound d step n := by
  obtain ⟨n, hn⟩ := exists_nat_ge (normSq d / step ^ 2)
  refine ⟨n + 1, ?_⟩
  have hs : (0 : ℚ) < step ^ 2 := by positivity
  have h1 : normSq d ≤ (n : ℚ) * step ^ 2 := by
    have := (div_le_iff₀ hs).mp hn
    linarith
  have h2 : (n : ℚ) * step ^ 2 ≤ ((n : ℚ) + 1) ^ 2 * step ^ 2 := by
    have hn2 : (n : ℚ) ≤ ((n : ℚ) + 1) ^ 2 := by nlinarith [sq_nonneg (n : ℚ)]
    nlinarith
  unfold stepBound
  push_cast
  nlinarith

/-- Modelled from the spec: `linear_interpolate_path` lives in
`airobot/utils/common.py`, which is not among the provided sources; §4.4
of the spec computes "the number of steps as ceil(norm(displacement)/step)".
For a positive `step` this is the least `n` with `‖d‖ ≤ n * step`,
computed here through the squared, rational-decidable bound `stepBound`. -/
def numWaypoints (d : Vec3) (step : ℚ) : ℕ :=
  if h : 0 < step then Nat.find (stepBound_exists d step h) else 0

/-- Modelled from the spec: the waypoints of the linear interpolation for a
nonzero displacement — per §8's concrete test, `numWaypoints d step`
points, the `k`-th at the fraction `(k+1)/n` of the displacement, the last
being the exact endpoint `origin + d`. -/
def pathWaypoints (origin d : Vec3) (step : ℚ) : List Vec3 :=
  (List.range (numWaypoints d step)).map
    (fun (k : ℕ) => vadd origin
      (vsmul (((k : ℚ) + 1) / (numWaypoints d step : ℚ)) d))

/-- Modelled from the spec: the function `linear_interpolate_path` of
`airobot/utils/common.py` is not among the provided sources.  Per §4.4 and
§8 of the spec: fails with "invalid step" if `step ≤ 0`; returns the
single-point sequence `[origin]` when the displacement norm is zero; and
otherwise interpolates at fixed fractions of the displacement, ending at
the exact endpoint. -/
def linear_interpolate_path (origin d : Vec3) (step : ℚ) :
    Except Err (List Vec3) :=
  if step ≤ 0 then .error (.valueError "invalid step")
  else if numWaypoints d step = 0 then .ok [origin]
  else .ok (pathWaypoints origin d step)

namespace SingleArmPybullet

/-- `SingleArmPybullet.get_ee_pose`: reads the end-effector link state;
only the position and quaternion components are used downstream. -/
def get_ee_pose (a : SingleArmPybullet) (w : World) :
    (Vec3 × List ℚ) × List Cmd :=
  ((w.eePos, w.eeQuat), [Cmd.getLinkState a.ee_link_id])

/-- `SingleArmPybullet.compute_ik`: delegates to
`p.calculateInverseKinematics` and truncates the full kinematic-chain
solution to the arm DOF (`jnt_poss[:self.arm_dof]`). -/
def compute_ik (a : SingleArmPybullet) (w : World) (pos : Vec3)
    (ori : Option (List ℚ)) : List ℚ × List Cmd :=
  ((w.ik pos ori).take a.arm_dof, [Cmd.calculateIK pos ori])

/-- The `for jnt_poss in way_jnt_positions: success = self.set_jpos(...)`
loop of `move_ee_xyz`: issues `set_jpos` (with default `wait=True`)
sequentially for each waypoint solution, each call overwriting
`success`. -/
def set_jpos_loop (a : SingleArmPybullet) (w : World) :
    List (List ℚ) → ℕ → Bool → Res Bool
  | [], nw, success => ⟨.ok success, a, nw, []⟩
  | jp :: rest, nw, _ =>
    match set_jpos a w (PyVal.list jp) none true false nw with
    | ⟨.error e, a', nw', tr⟩ => ⟨.error e, a', nw', tr⟩
    | ⟨.ok s, a', nw', tr⟩ =>
      let r := set_jpos_loop a' w rest nw' s
      ⟨r.ret, r.arm, r.nw, tr ++ r.trace⟩

/-- `SingleArmPybullet.move_ee_xyz`: raises `AssertionError` immediately in
step-simulation mode; otherwise reads the current end-effector pose,
interpolates waypoints along `delta_xyz`, solves inverse kinematics per
waypoint with the orientation held fixed, and sequentially issues
`set_jpos` per waypoint, the last call's outcome being the result. -/
def move_ee_xyz (a : SingleArmPybullet) (w : World) (delta_xyz : Vec3)
    (eef_step : ℚ) (nw : ℕ) : Res Bool :=
  if a.step_sim_mode then
    ⟨.error (.assertionError "move_ee_xyz can only be called in realtime simulation mode"),
     a, nw, []⟩
  else
    match get_ee_pose a w with
    | ((cur_pos, quat), tr0) =>
      match linear_interpolate_path cur_pos delta_xyz eef_step with
      | .error e => ⟨.error e, a, nw, tr0⟩
      | .ok waypoints =>
        let ikTrace := waypoints.map
          (fun wp => (compute_ik a w wp (some quat)).2)
        let way_jnt_positions := waypoints.map
          (fun wp => (compute_ik a w wp (some quat)).1)
        let r := set_jpos_loop a w way_jnt_positions nw false
        ⟨r.ret, r.arm, r.nw, tr0 ++ ikTrace.flatten ++ r.trace⟩

end SingleArmPybullet

open SingleArmPybullet

/-! ## Helper lemmas -/

theorem pyGet_eq_ok {α : Type} {l : List α} {i : ℕ} {x : α}
    (h : l[i]? = some x) : pyGet l i = .ok x := by
  obtain ⟨hlt, hx⟩ := List.getElem?_eq_some.mp h
  unfold pyGet
  rw [dif_pos hlt]
  simp [List.get_eq_getElem, hx]

theorem pyIndex_eq_ok {l : List String} {x : String} (h : x ∈ l) :
    pyIndex l x = .ok (l.indexOf x) := by
  unfold pyIndex
  rw [if_pos h]

theorem is_in_torque_mode_single {a : SingleArmPybullet} {jn : String}
    {b : Bool} (hmem : jn ∈ a.arm_jnt_names)
    (hflag : a.in_torque_mode[a.arm_jnt_names.indexOf jn]? = some b) :
    is_in_torque_mode a (some jn) = .ok b := by
  simp only [is_in_torque_mode, pyIndex_eq_ok hmem]
  exact pyGet_eq_ok hflag

/-! ## Claims -/

/-- C1: for every torque goal, `set_jtorq` raises `RuntimeError` and
issues no actuation command whenever an addressed joint is not flagged in
torque mode — for the whole-arm call the check is the conjunction of all
per-joint flags — and whenever the mode check and goal validation pass it
issues the `TORQUE_CONTROL` command and returns `True`. -/
theorem C1_set_jtorq_mode_guard (a : SingleArmPybullet) (torque : PyVal)
    (nw : ℕ) :
    (a.in_torque_mode.all id = false →
      set_jtorq a torque none nw =
        ⟨.error (.runtimeError
           "Call enable_torque_control first before setting torques"),
         a, nw, []⟩) ∧
    (∀ l : List ℚ, torque = PyVal.list l → l.length = a.arm_dof →
      a.in_torque_mode.all id = true →
      set_jtorq a torque none nw =
        ⟨.ok true, a, nw,
         [Cmd.controlArray a.arm_jnt_ids ControlMode.TORQUE none
            (PyVal.list l)]⟩) ∧
    (∀ jn : String, jn ∈ a.arm_jnt_names →
      (a.in_torque_mode[a.arm_jnt_names.indexOf jn]? = some false →
        set_jtorq a torque (some jn) nw =
          ⟨.error (.runtimeError
             "Call enable_torque_control first before setting torques"),
           a, nw, []⟩) ∧
      (∀ jid : ℕ,
        a.in_torque_mode[a.arm_jnt_names.indexOf jn]? = some true →
        a.jnt_to_id.lookup jn = some jid →
        set_jtorq a torque (some jn) nw =
          ⟨.ok true, a, nw,
           [Cmd.control2 jid ControlMode.TORQUE none torque]⟩)) := by
  refine ⟨fun hall => ?_, fun l hl hlen hall => ?_,
    fun jn hmem => ⟨fun hflag => ?_, fun jid hflag hjid => ?_⟩⟩
  · simp [set_jtorq, is_in_torque_mode, hall]
  · subst hl
    simp [set_jtorq, is_in_torque_mode, hall, hlen]
  · rw [set_jtorq, is_in_torque_mode_single hmem hflag]
    rfl
  · rw [set_jtorq, is_in_torque_mode_single hmem hflag]
    simp [hmem, dictGet, hjid]

theorem C1_witness :
    set_jtorq armEx (PyVal.list [1, 2]) none 0 =
      ⟨.error (.runtimeError
         "Call enable_torque_control first before setting torques"),
       armEx, 0, []⟩ ∧
    set_jtorq armT (PyVal.list [1, 2]) none 0 =
      ⟨.ok true, armT, 0,
       [Cmd.controlArray [0, 1] ControlMode.TORQUE none
          (PyVal.list [1, 2])]⟩ ∧
    set_jtorq armT (PyVal.num 3) (some "shoulder") 0 =
      ⟨.ok true, armT, 0,
       [Cmd.control2 0 ControlMode.TORQUE none (PyVal.num 3)]⟩ :=
  ⟨(C1_set_jtorq_mode_guard armEx (PyVal.list [1, 2]) 0).1 (by decide),
   (C1_set_jtorq_mode_guard armT (PyVal.list [1, 2]) 0).2.1 [1, 2] rfl
     (by decide) (by decide),
   ((C1_set_jtorq_mode_guard armT (PyVal.num 3) 0).2.2 "shoulder"
     (by decide)).2 0 (by decide) (by decide)⟩

/-- C2: a full-arm goal whose length differs from the arm's DOF count
makes `set_jpos` and `set_jvel` raise `ValueError` synchronously, with no
actuation command and no joint-state reset issued before the exception. -/
theorem C2_wrong_length_rejected (a : SingleArmPybullet) (w : World)
    (l : List ℚ) (wait ignore : Bool) (nw : ℕ)
    (h : l.length ≠ a.arm_dof) :
    set_jpos a w (PyVal.list l) none wait ignore nw =
      ⟨.error (.valueError "Position should contain arm_dof elements"),
       a, nw, []⟩ ∧
    set_jvel a w (PyVal.list l) none wait nw =
      ⟨.error (.valueError "Velocity should contain arm_dof elements"),
       a, nw, []⟩ := by
  constructor
  · simp [set_jpos, h]
  · simp [set_jvel, h]

theorem C2_witness :
    set_jpos armEx worldEx (PyVal.list [1, 2, 3]) none true false 0 =
      ⟨.error (.valueError "Position should contain arm_dof elements"),
       armEx, 0, []⟩ ∧
    set_jvel armEx worldEx (PyVal.list [1, 2, 3]) none true 0 =
      ⟨.error (.valueError "Velocity should contain arm_dof elements"),
       armEx, 0, []⟩ :=
  C2_wrong_length_rejected armEx worldEx [1, 2, 3] true false 0 (by decide)

/-- C7: for every delta and step size, `move_ee_xyz` called in manual
step-simulation mode raises `AssertionError` immediately and issues zero
commands: no pose read, no inverse kinematics, no joint command. -/
theorem C7_move_ee_xyz_step_mode (a : SingleArmPybullet) (w : World)
    (delta : Vec3) (step : ℚ) (nw : ℕ) (h : a.step_sim_mode = true) :
    move_ee_xyz a w delta step nw =
      ⟨.error (.assertionError
         "move_ee_xyz can only be called in realtime simulation mode"),
       a, nw, []⟩ := by
  simp [move_ee_xyz, h]

theorem C7_witness :
    move_ee_xyz armS worldEx ⟨1/100, 0, 0⟩ (1/200) 0 =
      ⟨.error (.assertionError
         "move_ee_xyz can only be called in realtime simulation mode"),
       armS, 0, []⟩ :=
  C7_move_ee_xyz_step_mode armS worldEx ⟨1/100, 0, 0⟩ (1/200) 0 (by decide)

/-! ## Evaluation lemmas for the velocity / position / mode-transition
methods, shared across the claim theorems -/

theorem set_jvel_full_nowait (a : SingleArmPybullet) (w : World) (l : List ℚ)
    (nw : ℕ) (hlen : l.length = a.arm_dof) :
    set_jvel a w (PyVal.list l) none false nw =
      ⟨.ok (!a.step_sim_mode), a, nw,
       [Cmd.controlArray a.arm_jnt_ids ControlMode.VELOCITY
          (some (PyVal.list l)) (PyVal.list a.max_torques)]⟩ := by
  cases h : a.step_sim_mode <;> simp [set_jvel, hlen, h]

theorem set_jvel_single_nowait (a : SingleArmPybullet) (w : World)
    (v : PyVal) (jn : String) (jid : ℕ) (mt : ℚ) (nw : ℕ)
    (hmem : jn ∈ a.arm_jnt_names)
    (hmt : a.max_torques[a.arm_jnt_names.indexOf jn]? = some mt)
    (hjid : a.jnt_to_id.lookup jn = some jid) :
    set_jvel a w v (some jn) false nw =
      ⟨.ok (!a.step_sim_mode), a, nw,
       [Cmd.control2 jid ControlMode.VELOCITY (some v) (PyVal.num mt)]⟩ := by
  cases h : a.step_sim_mode <;>
    simp [set_jvel, hmem, pyGet_eq_ok hmt, dictGet, hjid, h]

theorem set_jpos_full_physics (a : SingleArmPybullet) (w : World)
    (l : List ℚ) (wait : Bool) (nw : ℕ) (hlen : l.length = a.arm_dof) :
    set_jpos a w (PyVal.list l) none wait false nw =
      ⟨.ok (if ¬a.step_sim_mode ∧ wait then w.waits nw else false), a,
       if ¬a.step_sim_mode ∧ wait then nw + 1 else nw,
       [Cmd.controlArray a.arm_jnt_ids ControlMode.POSITION
          (some (PyVal.list l)) (PyVal.list a.max_torques)]⟩ := by
  cases hs : a.step_sim_mode <;> cases wait <;> simp [set_jpos, hlen, hs]

theorem set_jpos_single_physics (a : SingleArmPybullet) (w : World)
    (v : PyVal) (jn : String) (jid : ℕ) (mt : ℚ) (wait : Bool) (nw : ℕ)
    (hmem : jn ∈ a.arm_jnt_names)
    (hmt : a.max_torques[a.arm_jnt_names.indexOf jn]? = some mt)
    (hjid : a.jnt_to_id.lookup jn = some jid) :
    set_jpos a w v (some jn) wait false nw =
      ⟨.ok (if ¬a.step_sim_mode ∧ wait then w.waits nw else false), a,
       if ¬a.step_sim_mode ∧ wait then nw + 1 else nw,
       [Cmd.control2 jid ControlMode.POSITION (some v) (PyVal.num mt)]⟩ := by
  cases hs : a.step_sim_mode <;> cases wait <;>
    simp [set_jpos, hmem, pyGet_eq_ok hmt, dictGet, hjid, hs]

theorem enable_all_spec (a : SingleArmPybullet) (nw : ℕ) :
    enable_torque_control a none nw =
      ⟨.ok (), { a with in_torque_mode := List.replicate a.arm_dof true }, nw,
       [Cmd.controlArray a.arm_jnt_ids ControlMode.VELOCITY
          (some (PyVal.list (List.replicate a.arm_dof 0)))
          (PyVal.list (List.replicate a.arm_dof 0))]⟩ := rfl

theorem disable_all_spec (a : SingleArmPybullet) (w : World) (nw : ℕ) :
    disable_torque_control a w none nw =
      ⟨.ok (), { a with in_torque_mode := List.replicate a.arm_dof false }, nw,
       [Cmd.controlArray a.arm_jnt_ids ControlMode.VELOCITY
          (some (PyVal.list (List.replicate a.arm_dof 0)))
          (PyVal.list a.max_torques)]⟩ := by
  simp [disable_torque_control,
    set_jvel_full_nowait a w (List.replicate a.arm_dof 0) nw (by simp)]

theorem disable_single_spec (a : SingleArmPybullet) (w : World) (jn : String)
    (jid : ℕ) (mt : ℚ) (nw : ℕ)
    (hmem : jn ∈ a.arm_jnt_names)
    (hmt : a.max_torques[a.arm_jnt_names.indexOf jn]? = some mt)
    (hjid : a.jnt_to_id.lookup jn = some jid) :
    disable_torque_control a w (some jn) nw =
      ⟨.ok (),
       { a with in_torque_mode :=
           a.in_torque_mode.set (a.arm_jnt_names.indexOf jn) false }, nw,
       [Cmd.control2 jid ControlMode.VELOCITY (some (PyVal.num 0))
          (PyVal.num mt)]⟩ := by
  simp [disable_torque_control,
    set_jvel_single_nowait a w (PyVal.num 0) jn jid mt nw hmem hmt hjid,
    pyIndex_eq_ok hmem]

theorem all_replicate_false (n : ℕ) (h : n ≠ 0) :
    (List.replicate n false).all id = false := by
  cases n with
  | zero => exact absurd rfl h
  | succ m => simp [List.replicate_succ]

/-- C4 counterexample: on a concrete two-joint arm in torque mode,
`disable_torque_control` does flip the flags to False and commands
velocity control with target velocity zero, but the force field of the
issued command is the configured max torques `[150, 150]`, not zero — the
claim's "force zero" fails on this input. -/
theorem C4_counterexample :
    (disable_torque_control armT worldEx none 0).arm.in_torque_mode =
      [false, false] ∧
    (disable_torque_control armT worldEx none 0).trace =
      [Cmd.controlArray [0, 1] ControlMode.VELOCITY
         (some (PyVal.list [0, 0])) (PyVal.list [150, 150])] ∧
    PyVal.list [150, 150] ≠ PyVal.list [0, 0] := by
  decide

/-- C4 (amended): exiting torque mode returns the addressed joint(s) to
velocity control with zero target velocity and the configured per-joint
maximum torques as the force limit (not zero force): after
`disable_torque_control` the tracked flag(s) are False and the actuator
was commanded in velocity-control mode with target velocity zero and
force equal to the configured max torque(s). -/
theorem C4_disable_torque_control (a : SingleArmPybullet) (w : World)
    (nw : ℕ) :
    (disable_torque_control a w none nw =
      ⟨.ok (), { a with in_torque_mode := List.replicate a.arm_dof false },
       nw,
       [Cmd.controlArray a.arm_jnt_ids ControlMode.VELOCITY
          (some (PyVal.list (List.replicate a.arm_dof 0)))
          (PyVal.list a.max_torques)]⟩) ∧
    (∀ jn jid mt, jn ∈ a.arm_jnt_names →
      a.max_torques[a.arm_jnt_names.indexOf jn]? = some mt →
      a.jnt_to_id.lookup jn = some jid →
      disable_torque_control a w (some jn) nw =
        ⟨.ok (),
         { a with in_torque_mode :=
             a.in_torque_mode.set (a.arm_jnt_names.indexOf jn) false }, nw,
         [Cmd.control2 jid ControlMode.VELOCITY (some (PyVal.num 0))
            (PyVal.num mt)]⟩) :=
  ⟨disable_all_spec a w nw,
   fun jn jid mt hmem hmt hjid =>
     disable_single_spec a w jn jid mt nw hmem hmt hjid⟩

theorem C4_witness :
    disable_torque_control armT worldEx none 0 =
      ⟨.ok (), { armT with in_torque_mode := [false, false] }, 0,
       [Cmd.controlArray [0, 1] ControlMode.VELOCITY
          (some (PyVal.list [0, 0])) (PyVal.list [150, 150])]⟩ ∧
    disable_torque_control armT worldEx (some "shoulder") 0 =
      ⟨.ok (), { armT with in_torque_mode := [false, true] }, 0,
       [Cmd.control2 0 ControlMode.VELOCITY (some (PyVal.num 0))
          (PyVal.num 150)]⟩ :=
  ⟨(C4_disable_torque_control armT worldEx 0).1,
   (C4_disable_torque_control armT worldEx 0).2 "shoulder" 0 150
     (by decide) (by decide) (by decide)⟩

/-- C5 counterexample: on a concrete arm in manual step-simulation mode,
`set_jvel` with a valid full-arm goal and `wait=False` issues the velocity
command but returns `False`, refuting "returns True ... regardless of
simulation mode". -/
theorem C5_counterexample :
    (set_jvel armS worldEx (PyVal.list [0, 0]) none false 0).ret =
      .ok false ∧
    (set_jvel armS worldEx (PyVal.list [0, 0]) none false 0).trace =
      [Cmd.controlArray [0, 1] ControlMode.VELOCITY
         (some (PyVal.list [0, 0])) (PyVal.list [150, 150])] := by
  decide

/-- C5 (amended): for every valid velocity goal, `set_jvel` with
`wait=False` issues the velocity command and returns `True` when the
simulator is in continuous (realtime) mode, but returns `False` in manual
step-simulation mode even though the command was issued: the result is
the negation of the step-simulation flag. -/
theorem C5_set_jvel_nowait (a : SingleArmPybullet) (w : World) (nw : ℕ) :
    (∀ l : List ℚ, l.length = a.arm_dof →
      set_jvel a w (PyVal.list l) none false nw =
        ⟨.ok (!a.step_sim_mode), a, nw,
         [Cmd.controlArray a.arm_jnt_ids ControlMode.VELOCITY
            (some (PyVal.list l)) (PyVal.list a.max_torques)]⟩) ∧
    (∀ (v : PyVal) (jn : String) (jid : ℕ) (mt : ℚ),
      jn ∈ a.arm_jnt_names →
      a.max_torques[a.arm_jnt_names.indexOf jn]? = some mt →
      a.jnt_to_id.lookup jn = some jid →
      set_jvel a w v (some jn) false nw =
        ⟨.ok (!a.step_sim_mode), a, nw,
         [Cmd.control2 jid ControlMode.VELOCITY (some v)
            (PyVal.num mt)]⟩) :=
  ⟨fun l hlen => set_jvel_full_nowait a w l nw hlen,
   fun v jn jid mt hmem hmt hjid =>
     set_jvel_single_nowait a w v jn jid mt nw hmem hmt hjid⟩

theorem C5_witness :
    set_jvel armEx worldEx (PyVal.list [0, 0]) none false 0 =
      ⟨.ok true, armEx, 0,
       [Cmd.controlArray [0, 1] ControlMode.VELOCITY
          (some (PyVal.list [0, 0])) (PyVal.list [150, 150])]⟩ ∧
    set_jvel armEx worldEx (PyVal.num 2) (some "elbow") false 0 =
      ⟨.ok true, armEx, 0,
       [Cmd.control2 1 ControlMode.VELOCITY (some (PyVal.num 2))
          (PyVal.num 150)]⟩ :=
  ⟨(C5_set_jvel_nowait armEx worldEx 0).1 [0, 0] (by decide),
   (C5_set_jvel_nowait armEx worldEx 0).2 (PyVal.num 2) "elbow" 1 150
     (by decide) (by decide) (by decide)⟩

/-- C6: starting from any state of an arm with at least one joint,
enabling torque control for all joints and then disabling it for all
joints leaves every per-joint torque-mode flag False, so a subsequent
`set_jtorq` call (whole-arm, or on any arm joint) fails with the
mode-violation `RuntimeError` and issues no torque command. -/
theorem C6_roundtrip (a a1 a2 : SingleArmPybullet) (w : World)
    (torque : PyVal) (nw₁ nw₂ nw₃ : ℕ)
    (hne : a.arm_jnt_names ≠ [])
    (h1 : a1 = (enable_torque_control a none nw₁).arm)
    (h2 : a2 = (disable_torque_control a1 w none nw₂).arm) :
    a2.in_torque_mode = List.replicate a.arm_dof false ∧
    set_jtorq a2 torque none nw₃ =
      ⟨.error (.runtimeError
         "Call enable_torque_control first before setting torques"),
       a2, nw₃, []⟩ ∧
    ∀ jn, jn ∈ a.arm_jnt_names →
      set_jtorq a2 torque (some jn) nw₃ =
        ⟨.error (.runtimeError
           "Call enable_torque_control first before setting torques"),
         a2, nw₃, []⟩ := by
  have hdof : a.arm_dof ≠ 0 := by
    simpa [arm_dof] using hne
  subst h1
  rw [enable_all_spec] at h2
  rw [disable_all_spec] at h2
  simp only at h2
  have ha2 : a2 = { a with in_torque_mode := List.replicate a.arm_dof false } := h2
  subst ha2
  refine ⟨rfl, ?_, ?_⟩
  · simp [set_jtorq, is_in_torque_mode, all_replicate_false _ hdof]
  · intro jn hmem
    have hmem2 : jn ∈ (SingleArmPybullet.mk a.arm_jnt_names a.jnt_to_id
        a.arm_jnt_ids (List.replicate a.arm_dof false) a.step_sim_mode
        a.max_torques a.ee_link_id).arm_jnt_names := hmem
    have hidx : a.arm_jnt_names.indexOf jn < a.arm_dof :=
      List.indexOf_lt_length.mpr hmem
    have hflag : (List.replicate a.arm_dof false)[a.arm_jnt_names.indexOf jn]? =
        some false := by
      rw [List.getElem?_eq_getElem (by simpa using hidx)]
      simp
    rw [set_jtorq, is_in_torque_mode_single hmem2 hflag]
    rfl

theorem C6_witness :
    ((disable_torque_control (enable_torque_control armT none 0).arm
        worldEx none 0).arm.in_torque_mode = [false, false]) ∧
    set_jtorq (disable_torque_control (enable_torque_control armT none 0).arm
        worldEx none 0).arm (PyVal.list [1, 2]) none 0 =
      ⟨.error (.runtimeError
         "Call enable_torque_control first before setting torques"),
       (disable_torque_control (enable_torque_control armT none 0).arm
          worldEx none 0).arm, 0, []⟩ ∧
    set_jtorq (disable_torque_control (enable_torque_control armT none 0).arm
        worldEx none 0).arm (PyVal.list [1, 2]) (some "elbow") 0 =
      ⟨.error (.runtimeError
         "Call enable_torque_control first before setting torques"),
       (disable_torque_control (enable_torque_control armT none 0).arm
          worldEx none 0).arm, 0, []⟩ := by
  obtain ⟨hflags, hfull, hsingle⟩ :=
    C6_roundtrip armT
      (enable_torque_control armT none 0).arm
      (disable_torque_control (enable_torque_control armT none 0).arm
        worldEx none 0).arm
      worldEx (PyVal.list [1, 2]) 0 0 0 (by decide) rfl rfl
  exact ⟨hflags, hfull, hsingle "elbow" (by decide)⟩

/-- The `ignore_physics` reset loop issues exactly one `resetJointState`
per (joint, target) pair when every joint name resolves in `jnt_to_id`
(stated through `Forall₂` against the resolved id list). -/
theorem resetLoop_spec (a : SingleArmPybullet) :
    ∀ {names : List String} {ids : List ℕ},
    List.Forall₂ (fun jn jid => a.jnt_to_id.lookup jn = some jid) names ids →
    ∀ vals : List ℚ,
    resetLoop a (names.zip vals) =
      (.ok (), List.zipWith
        (fun jid v => Cmd.resetJointState jid (PyVal.num v) 0) ids vals) := by
  intro names ids h
  induction h with
  | nil => intro vals; simp [resetLoop]
  | @cons jn jid ns is hrel hrest ih =>
    intro vals
    cases vals with
    | nil => simp [resetLoop]
    | cons v vs =>
      rw [List.zip_cons_cons]
      simp only [resetLoop, reset_joint_state, dictGet, hrel]
      rw [ih vs]
      simp

/-- C9: for every valid joint-position goal, `set_jpos` with
`ignore_physics=True` first commands zero velocity, then hard-resets the
addressed joint state(s) to the target value(s), performs no convergence
wait (the waiter-outcome index is unchanged), and returns `True`
unconditionally for any `wait` flag. -/
theorem C9_set_jpos_ignore_physics (a : SingleArmPybullet) (w : World)
    (wait : Bool) (nw : ℕ) :
    (∀ l : List ℚ, l.length = a.arm_dof →
      List.Forall₂ (fun jn jid => a.jnt_to_id.lookup jn = some jid)
        a.arm_jnt_names a.arm_jnt_ids →
      set_jpos a w (PyVal.list l) none wait true nw =
        ⟨.ok true, a, nw,
         Cmd.controlArray a.arm_jnt_ids ControlMode.VELOCITY
             (some (PyVal.list (List.replicate a.arm_dof 0)))
             (PyVal.list a.max_torques) ::
           List.zipWith
             (fun jid v => Cmd.resetJointState jid (PyVal.num v) 0)
             a.arm_jnt_ids l⟩) ∧
    (∀ (v : PyVal) (jn : String) (jid : ℕ) (mt : ℚ),
      jn ∈ a.arm_jnt_names →
      a.max_torques[a.arm_jnt_names.indexOf jn]? = some mt →
      a.jnt_to_id.lookup jn = some jid →
      set_jpos a w v (some jn) wait true nw =
        ⟨.ok true, a, nw,
         [Cmd.control2 jid ControlMode.VELOCITY (some (PyVal.num 0))
            (PyVal.num mt),
          Cmd.resetJointState jid v 0]⟩) := by
  constructor
  · intro l hlen hids
    simp [set_jpos, hlen,
      set_jvel_full_nowait a w (List.replicate a.arm_dof 0) nw (by simp),
      resetLoop_spec a hids l]
  · intro v jn jid mt hmem hmt hjid
    simp [set_jpos, hmem, pyGet_eq_ok hmt, dictGet, hjid,
      set_jvel_single_nowait a w (PyVal.num 0) jn jid mt nw hmem hmt hjid,
      reset_joint_state]

theorem C9_witness :
    set_jpos armEx worldEx (PyVal.list [1/2, 1/3]) none true true 0 =
      ⟨.ok true, armEx, 0,
       [Cmd.controlArray [0, 1] ControlMode.VELOCITY
          (some (PyVal.list [0, 0])) (PyVal.list [150, 150]),
        Cmd.resetJointState 0 (PyVal.num (1/2)) 0,
        Cmd.resetJointState 1 (PyVal.num (1/3)) 0]⟩ ∧
    set_jpos armEx worldEx (PyVal.num (1/4)) (some "elbow") true true 0 =
      ⟨.ok true, armEx, 0,
       [Cmd.control2 1 ControlMode.VELOCITY (some (PyVal.num 0))
          (PyVal.num 150),
        Cmd.resetJointState 1 (PyVal.num (1/4)) 0]⟩ :=
  ⟨(C9_set_jpos_ignore_physics armEx worldEx true 0).1 [1/2, 1/3]
     (by decide)
     (.cons (by decide) (.cons (by decide) .nil)),
   (C9_set_jpos_ignore_physics armEx worldEx true 0).2 (PyVal.num (1/4))
     "elbow" 1 150 (by decide) (by decide) (by decide)⟩

/-- C10 (implicit): on the physics path (`ignore_physics=False`),
`set_jpos` returns the waiter outcome only when not in step-simulation
mode and `wait=True`; in every other case — `wait=False` or manual
step-simulation mode — it returns `False` even though the
position-control command was issued, so `True` can only come from the
convergence waiter (or the `ignore_physics` branch). -/
theorem C10_set_jpos_physics_result (a : SingleArmPybullet) (w : World)
    (wait : Bool) (nw : ℕ) :
    (∀ l : List ℚ, l.length = a.arm_dof →
      set_jpos a w (PyVal.list l) none wait false nw =
        ⟨.ok (if ¬a.step_sim_mode ∧ wait then w.waits nw else false), a,
         if ¬a.step_sim_mode ∧ wait then nw + 1 else nw,
         [Cmd.controlArray a.arm_jnt_ids ControlMode.POSITION
            (some (PyVal.list l)) (PyVal.list a.max_torques)]⟩) ∧
    (∀ (v : PyVal) (jn : String) (jid : ℕ) (mt : ℚ),
      jn ∈ a.arm_jnt_names →
      a.max_torques[a.arm_jnt_names.indexOf jn]? = some mt →
      a.jnt_to_id.lookup jn = some jid →
      set_jpos a w v (some jn) wait false nw =
        ⟨.ok (if ¬a.step_sim_mode ∧ wait then w.waits nw else false), a,
         if ¬a.step_sim_mode ∧ wait then nw + 1 else nw,
         [Cmd.control2 jid ControlMode.POSITION (some v)
            (PyVal.num mt)]⟩) :=
  ⟨fun l hlen => set_jpos_full_physics a w l wait nw hlen,
   fun v jn jid mt hmem hmt hjid =>
     set_jpos_single_physics a w v jn jid mt wait nw hmem hmt hjid⟩

theorem C10_witness :
    set_jpos armEx worldEx (PyVal.list [1, 2]) none false false 5 =
      ⟨.ok false, armEx, 5,
       [Cmd.controlArray [0, 1] ControlMode.POSITION
          (some (PyVal.list [1, 2])) (PyVal.list [150, 150])]⟩ ∧
    set_jpos armS worldEx (PyVal.list [1, 2]) none true false 5 =
      ⟨.ok false, armS, 5,
       [Cmd.controlArray [0, 1] ControlMode.POSITION
          (some (PyVal.list [1, 2])) (PyVal.list [150, 150])]⟩ := by
  constructor
  · have h := (C10_set_jpos_physics_result armEx worldEx false 5).1 [1, 2]
      (by decide)
    simpa using h
  · have h := (C10_set_jpos_physics_result armS worldEx true 5).1 [1, 2]
      (by decide)
    simpa [armS, armEx] using h

/-- Flattening a map to singleton lists is the plain map. -/
theorem flatten_map_singleton {α β : Type} (f : α → β) (l : List α) :
    (l.map (fun x => [f x])).flatten = l.map f := by
  induction l with
  | nil => simp
  | cons x xs ih => simp [ih]

/-- The waypoint list for a nonzero displacement has exactly
`numWaypoints` entries. -/
theorem pathWaypoints_length (origin d : Vec3) (step : ℚ) :
    (pathWaypoints origin d step).length = numWaypoints d step := by
  unfold pathWaypoints
  rw [List.length_map, List.length_range]

/-- The waypoint loop of `move_ee_xyz` in continuous mode: each valid goal
issues one `POSITION_CONTROL` command and consumes one waiter outcome;
the overall return value is the waiter outcome of the last goal (or the
incoming `success` value when there is no goal). -/
theorem set_jpos_loop_spec (a : SingleArmPybullet) (w : World)
    (hstep : a.step_sim_mode = false) :
    ∀ (goals : List (List ℚ)) (nw : ℕ) (s0 : Bool),
      (∀ g ∈ goals, g.length = a.arm_dof) →
      set_jpos_loop a w goals nw s0 =
        ⟨.ok (if goals = [] then s0 else w.waits (nw + goals.length - 1)),
         a, nw + goals.length,
         goals.map (fun g => Cmd.controlArray a.arm_jnt_ids
           ControlMode.POSITION (some (PyVal.list g))
           (PyVal.list a.max_torques))⟩ := by
  intro goals
  induction goals with
  | nil => intro nw s0 _; simp [set_jpos_loop]
  | cons g rest ih =>
    intro nw s0 hlen
    have hg : g.length = a.arm_dof := hlen g (by simp)
    have hrest : ∀ x ∈ rest, x.length = a.arm_dof := fun x hx =>
      hlen x (by simp [hx])
    have hcall := set_jpos_full_physics a w g true nw hg
    rw [hstep] at hcall
    simp only [Bool.false_eq_true, not_false_eq_true, and_self, if_true,
      true_and] at hcall
    simp only [set_jpos_loop, hcall]
    rw [ih (nw + 1) (w.waits nw) hrest]
    cases rest with
    | nil => simp
    | cons r rs =>
      have e1 : nw + 1 + (r :: rs).length - 1 =
          nw + (g :: r :: rs).length - 1 := by
        simp only [List.length_cons]
        omega
      have e2 : nw + 1 + (r :: rs).length = nw + (g :: r :: rs).length := by
        simp only [List.length_cons]
        omega
      rw [if_neg (List.cons_ne_nil r rs), if_neg (List.cons_ne_nil g (r :: rs)),
        e1, e2]
      simp

/-- C8: in continuous-simulation mode, `move_ee_xyz` issues `set_jpos`
sequentially for each waypoint's inverse-kinematics solution (one
`POSITION_CONTROL` command per waypoint, after one pose read and one IK
query per waypoint) and returns exactly the outcome of the `set_jpos`
call for the last waypoint — the waiter outcome at the last consumed
index — so a failure on an earlier waypoint does not affect the result. -/
theorem C8_move_ee_xyz_last_outcome (a : SingleArmPybullet) (w : World)
    (delta : Vec3) (eef_step : ℚ) (nw : ℕ)
    (hstep : a.step_sim_mode = false)
    (hpos : 0 < eef_step)
    (hnz : numWaypoints delta eef_step ≠ 0)
    (hik : ∀ wp : Vec3, a.arm_dof ≤ (w.ik wp (some w.eeQuat)).length) :
    move_ee_xyz a w delta eef_step nw =
      ⟨.ok (w.waits (nw + numWaypoints delta eef_step - 1)), a,
       nw + numWaypoints delta eef_step,
       Cmd.getLinkState a.ee_link_id ::
         ((pathWaypoints w.eePos delta eef_step).map
            (fun wp => Cmd.calculateIK wp (some w.eeQuat)) ++
          (pathWaypoints w.eePos delta eef_step).map
            (fun wp => Cmd.controlArray a.arm_jnt_ids ControlMode.POSITION
               (some (PyVal.list ((w.ik wp (some w.eeQuat)).take a.arm_dof)))
               (PyVal.list a.max_torques)))⟩ := by
  have hpath : linear_interpolate_path w.eePos delta eef_step =
      .ok (pathWaypoints w.eePos delta eef_step) := by
    unfold linear_interpolate_path
    rw [if_neg (not_le.mpr hpos), if_neg hnz]
  have hlen : ∀ g ∈ (pathWaypoints w.eePos delta eef_step).map
      (fun wp => (w.ik wp (some w.eeQuat)).take a.arm_dof),
      g.length = a.arm_dof := by
    intro g hg
    simp only [List.mem_map] at hg
    obtain ⟨wp, _, rfl⟩ := hg
    simp [List.length_take, Nat.min_eq_left (hik wp)]
  have hloop := set_jpos_loop_spec a w hstep
    ((pathWaypoints w.eePos delta eef_step).map
      (fun wp => (w.ik wp (some w.eeQuat)).take a.arm_dof)) nw false hlen
  have hne : (pathWaypoints w.eePos delta eef_step).map
      (fun wp => (w.ik wp (some w.eeQuat)).take a.arm_dof) ≠ [] := by
    intro hcon
    have hlencon := congrArg List.length hcon
    simp only [List.length_map, pathWaypoints_length, List.length_nil]
      at hlencon
    exact hnz hlencon
  rw [if_neg hne] at hloop
  simp only [List.length_map, pathWaypoints_length] at hloop
  unfold move_ee_xyz get_ee_pose compute_ik
  rw [hstep]
  simp only [Bool.false_eq_true, if_false, hpath]
  rw [hloop]
  simp [flatten_map_singleton, List.map_map, Function.comp]

/-- On the spec's concrete test input, the number of waypoints is
`ceil(norm([0.02,0,0]) / 0.005) = 4`. -/
theorem numWaypointsEx : numWaypoints ⟨1/50, 0, 0⟩ (1/200) = 4 := by
  unfold numWaypoints
  rw [dif_pos (by norm_num)]
  rw [Nat.find_eq_iff]
  constructor
  · show stepBound ⟨1/50, 0, 0⟩ (1/200) 4
    unfold stepBound normSq
    norm_num
  · intro k hk
    unfold stepBound normSq
    interval_cases k <;> norm_num

/-- The concrete waypoint list for origin `[0,0,0]`, displacement
`[0.02,0,0]`, step `0.005`. -/
theorem pathWaypointsEx :
    pathWaypoints ⟨0, 0, 0⟩ ⟨1/50, 0, 0⟩ (1/200) =
      [⟨1/200, 0, 0⟩, ⟨1/100, 0, 0⟩, ⟨3/200, 0, 0⟩, ⟨1/50, 0, 0⟩] := by
  unfold pathWaypoints
  rw [numWaypointsEx]
  norm_num [List.range_succ, vadd, vsmul]

theorem C8_witness :
    move_ee_xyz armEx worldEx ⟨1/50, 0, 0⟩ (1/200) 0 =
      ⟨.ok false, armEx, 4,
       [Cmd.getLinkState 2,
        Cmd.calculateIK ⟨1/200, 0, 0⟩ (some [0, 0, 0, 1]),
        Cmd.calculateIK ⟨1/100, 0, 0⟩ (some [0, 0, 0, 1]),
        Cmd.calculateIK ⟨3/200, 0, 0⟩ (some [0, 0, 0, 1]),
        Cmd.calculateIK ⟨1/50, 0, 0⟩ (some [0, 0, 0, 1]),
        Cmd.controlArray [0, 1] ControlMode.POSITION
          (some (PyVal.list [1/2, 1/3])) (PyVal.list [150, 150]),
        Cmd.controlArray [0, 1] ControlMode.POSITION
          (some (PyVal.list [1/2, 1/3])) (PyVal.list [150, 150]),
        Cmd.controlArray [0, 1] ControlMode.POSITION
          (some (PyVal.list [1/2, 1/3])) (PyVal.list [150, 150]),
        Cmd.controlArray [0, 1] ControlMode.POSITION
          (some (PyVal.list [1/2, 1/3])) (PyVal.list [150, 150])]⟩ := by
  have h := C8_move_ee_xyz_last_outcome armEx worldEx ⟨1/50, 0, 0⟩ (1/200) 0
    rfl (by norm_num) (by rw [numWaypointsEx]; decide)
    (fun _ => by norm_num [armEx, worldEx, arm_dof])
  simp only [worldEx] at h
  rw [numWaypointsEx, pathWaypointsEx] at h
  simpa [armEx, worldEx] using h

theorem normSq_nonneg (v : Vec3) : 0 ≤ normSq v := by
  unfold normSq
  positivity

theorem numWaypoints_eq_zero (d : Vec3) (step : ℚ) (h : 0 < step) :
    numWaypoints d step = 0 ↔ normSq d = 0 := by
  unfold numWaypoints
  rw [dif_pos h, Nat.find_eq_zero]
  unfold stepBound
  norm_num
  constructor
  · intro hle
    exact le_antisymm hle (normSq_nonneg d)
  · intro he
    simp [he]

theorem numWaypoints_eq_ceil (d : Vec3) (step : ℚ) (h : 0 < step) :
    numWaypoints d step = ⌈Real.sqrt (normSq d : ℝ) / (step : ℝ)⌉₊ := by
  have hs : (0 : ℝ) < (step : ℝ) := by exact_mod_cast h
  have hA : (0 : ℝ) ≤ ((normSq d : ℚ) : ℝ) := by exact_mod_cast normSq_nonneg d
  unfold numWaypoints
  rw [dif_pos h]
  apply le_antisymm
  · apply Nat.find_le
    unfold stepBound
    have h1 := Nat.le_ceil (Real.sqrt (normSq d : ℝ) / (step : ℝ))
    rw [div_le_iff₀ hs] at h1
    have h3 : ((normSq d : ℚ) : ℝ) ≤
        ((⌈Real.sqrt (normSq d : ℝ) / (step : ℝ)⌉₊ : ℝ) * (step : ℝ)) ^ 2 := by
      nlinarith [Real.sq_sqrt hA, Real.sqrt_nonneg ((normSq d : ℚ) : ℝ)]
    exact_mod_cast h3
  · rw [Nat.ceil_le, div_le_iff₀ hs]
    have hsb := Nat.find_spec (stepBound_exists d step h)
    unfold stepBound at hsb
    have hA2 : ((normSq d : ℚ) : ℝ) ≤
        ((Nat.find (stepBound_exists d step h) : ℝ) * (step : ℝ)) ^ 2 := by
      exact_mod_cast hsb
    calc Real.sqrt (normSq d : ℝ)
        ≤ Real.sqrt (((Nat.find (stepBound_exists d step h) : ℝ) *
            (step : ℝ)) ^ 2) := Real.sqrt_le_sqrt hA2
      _ = (Nat.find (stepBound_exists d step h) : ℝ) * (step : ℝ) :=
          Real.sqrt_sq (by positivity)

theorem vsmul_one (v : Vec3) : vsmul 1 v = v := by
  cases v
  simp [vsmul]

theorem pathWaypoints_getLast (origin d : Vec3) (step : ℚ)
    (h : numWaypoints d step ≠ 0) :
    (pathWaypoints origin d step).getLast? = some (vadd origin d) := by
  unfold pathWaypoints
  rw [List.getLast?_eq_getElem?, List.length_map, List.length_range,
    List.getElem?_map,
    List.getElem?_range (Nat.sub_lt (Nat.pos_of_ne_zero h) one_pos)]
  simp only [Option.map_some']
  congr 1
  have hcast : (((numWaypoints d step - 1 : ℕ) : ℚ) + 1) /
      ((numWaypoints d step : ℕ) : ℚ) = 1 := by
    have hn0 : ((numWaypoints d step : ℕ) : ℚ) ≠ 0 := Nat.cast_ne_zero.mpr h
    rw [Nat.cast_sub (Nat.one_le_iff_ne_zero.mpr h)]
    push_cast
    field_simp
  rw [hcast, vsmul_one]

/-- `linear_interpolate_path` on the spec's concrete test input. -/
theorem interpEx :
    linear_interpolate_path ⟨0, 0, 0⟩ ⟨1/50, 0, 0⟩ (1/200) =
      .ok [⟨1/200, 0, 0⟩, ⟨1/100, 0, 0⟩, ⟨3/200, 0, 0⟩, ⟨1/50, 0, 0⟩] := by
  unfold linear_interpolate_path
  rw [if_neg (by norm_num : ¬ (1/200 : ℚ) ≤ 0), numWaypointsEx]
  norm_num [pathWaypointsEx]

/-- C3 counterexample: on the claim's own concrete input
(origin `[0,0,0]`, displacement `[0.02,0,0]`, step `0.005`) the
interpolation yields exactly 4 waypoints ending at the exact endpoint,
whereas "ceil(norm(displacement)/step) intermediate points plus the exact
endpoint" would be `ceil + 1 = 5` waypoints — the claim's general count
formula contradicts its own concrete example. -/
theorem C3_counterexample :
    (∃ l : List Vec3,
      linear_interpolate_path ⟨0, 0, 0⟩ ⟨1/50, 0, 0⟩ (1/200) = .ok l ∧
      l.length = 4 ∧ l.getLast? = some ⟨1/50, 0, 0⟩) ∧
    ⌈Real.sqrt ((normSq (⟨1/50, 0, 0⟩ : Vec3) : ℚ) : ℝ) /
        ((1/200 : ℚ) : ℝ)⌉₊ + 1 ≠ 4 := by
  constructor
  · exact ⟨_, interpEx, rfl, rfl⟩
  · have h1 : ((normSq (⟨1/50, 0, 0⟩ : Vec3) : ℚ) : ℝ) = (1/50 : ℝ) ^ 2 := by
      norm_num [normSq]
    rw [h1, Real.sqrt_sq (by norm_num : (0 : ℝ) ≤ 1/50)]
    have h2 : (1/50 : ℝ) / ((1/200 : ℚ) : ℝ) = 4 := by
      push_cast
      norm_num
    rw [h2]
    simp

/-- C3 (amended): `linear_interpolate_path` fails with an invalid-step
error for every step ≤ 0; for positive step and nonzero displacement it
produces `ceil(norm(displacement)/step)` waypoints in total — that is,
`ceil − 1` intermediate points plus the exact endpoint as the last
waypoint (not `ceil` intermediate points plus the endpoint) —; for a
zero-norm displacement it returns exactly one waypoint equal to the
origin; and origin `[0,0,0]` with displacement `[0.02,0,0]` and step
`0.005` yields 4 waypoints ending exactly at `[0.02,0,0]`. -/
theorem C3_linear_interpolate (origin d : Vec3) (step : ℚ) :
    (step ≤ 0 →
      linear_interpolate_path origin d step =
        .error (.valueError "invalid step")) ∧
    (0 < step → normSq d = 0 →
      linear_interpolate_path origin d step = .ok [origin]) ∧
    (0 < step → normSq d ≠ 0 →
      ∃ l : List Vec3, linear_interpolate_path origin d step = .ok l ∧
        l.length = ⌈Real.sqrt (normSq d : ℝ) / (step : ℝ)⌉₊ ∧
        l.getLast? = some (vadd origin d)) ∧
    linear_interpolate_path ⟨0, 0, 0⟩ ⟨1/50, 0, 0⟩ (1/200) =
      .ok [⟨1/200, 0, 0⟩, ⟨1/100, 0, 0⟩, ⟨3/200, 0, 0⟩, ⟨1/50, 0, 0⟩] := by
  refine ⟨fun hle => ?_, fun hpos h0 => ?_, fun hpos hne => ?_, interpEx⟩
  · unfold linear_interpolate_path
    rw [if_pos hle]
  · unfold linear_interpolate_path
    rw [if_neg (not_le.mpr hpos),
      if_pos ((numWaypoints_eq_zero d step hpos).mpr h0)]
  · have hnz : numWaypoints d step ≠ 0 := fun hcon =>
      hne ((numWaypoints_eq_zero d step hpos).mp hcon)
    refine ⟨pathWaypoints origin d step, ?_, ?_,
      pathWaypoints_getLast origin d step hnz⟩
    · unfold linear_interpolate_path
      rw [if_neg (not_le.mpr hpos), if_neg hnz]
    · rw [pathWaypoints_length, numWaypoints_eq_ceil d step hpos]

theorem C3_witness :
    linear_interpolate_path ⟨1, 2, 3⟩ ⟨1, 0, 0⟩ (-1) =
      .error (.valueError "invalid step") ∧
    linear_interpolate_path ⟨1, 2, 3⟩ ⟨0, 0, 0⟩ (1/200) = .ok [⟨1, 2, 3⟩] :=
  ⟨(C3_linear_interpolate ⟨1, 2, 3⟩ ⟨1, 0, 0⟩ (-1)).1 (by norm_num),
   (C3_linear_interpolate ⟨1, 2, 3⟩ ⟨0, 0, 0⟩ (1/200)).2.1 (by norm_num)
     (by norm_num [normSq])⟩
